import Mathlib

/-!
Shallow embedding of the Hashagile repository: `src/app.py` (baseline script)
and `src/optimized/app.py` (the `SolrClient` refactor). Both files are thin
clients of an external Solr server reached through `requests` (admin endpoint)
and `pysolr` (document endpoint). The external behaviors — HTTP responses,
pysolr outcomes, the CSV file on disk, environment variables — are modelled
as an oracle record `Env`; each Python function becomes a Lean function from
`Env` (and its arguments) to its returned value together with the list of
observable events it performed (wire requests, file open/read/close).
Exceptions that escape a Python function are modelled by `PyResult.exn`.
-/

namespace Hashagile

/-- A value in the JSON facet list returned by Solr (alternating strings and
counts in `results.facets['facet_fields']['Department']`). -/
inductive JsonVal where
  | str (s : String)
  | num (n : Nat)
deriving DecidableEq

/-- A document: one CSV row as a Python dict, an insertion-ordered
association list from column name to value. -/
abbrev Doc := List (String × String)

/-- A wire request issued to the Solr server. -/
inductive Request where
  | statusAll
  | status (core : String)
  | create (core : String)
  | add (core : String) (docs : List Doc)
  | search (core : String) (query : String)
  | count (core : String)
  | delete (core : String) (id : String)
  | facet (core : String)
deriving DecidableEq

/-- An observable event of a run: a wire request or a CSV-file action. -/
inductive Event where
  | fileOpen (path : String)
  | fileRead (path : String)
  | fileClose (path : String)
  | wire (r : Request)
deriving DecidableEq

/-- Outcome of a `requests.get` followed by `raise_for_status()`: either a
well-formed decoded response or a `requests.exceptions.RequestException`. -/
inductive HttpOutcome (α : Type) where
  | success (a : α)
  | requestError (msg : String)
deriving DecidableEq

/-- Outcome of a pysolr call: a result, or a raised exception whose
`str(e)` is `msg`. -/
inductive SolrOutcome (α : Type) where
  | success (a : α)
  | raise (msg : String)
deriving DecidableEq

/-- A CSV file: header row and data rows (as read by `csv.DictReader`). -/
structure Csv where
  header : List String
  rows : List (List String)
deriving DecidableEq

/-- The external world: server behavior for each endpoint and the file
system. Admin responses are modelled as decoded (`status` yields the key
list of the response's core-status map, `create` yields whether the JSON
has a `success` key plus the response text). -/
structure Env where
  statusAll : HttpOutcome Unit
  status : String → HttpOutcome (List String)
  create : String → HttpOutcome (Bool × String)
  readFile : String → Option Csv
  add : String → List Doc → SolrOutcome Unit
  search : String → String → SolrOutcome (List Doc)
  count : String → SolrOutcome Nat
  delete : String → String → SolrOutcome Unit
  facet : String → SolrOutcome (List JsonVal)

/-- A Python exception escaping a function. -/
inductive PyExn where
  | requestException (msg : String)
  | fileNotFound
  | solrError (msg : String)
deriving DecidableEq

/-- Result of a Python call: a returned value or an escaped exception. -/
inductive PyResult (α : Type) where
  | ret (a : α)
  | exn (e : PyExn)
deriving DecidableEq

/-- The effect of one Python call: its result plus the events it performed. -/
def M (α : Type) := PyResult α × List Event

instance {α : Type} [DecidableEq α] : DecidableEq (M α) :=
  fun x y => instDecidableEqProd x y

instance : Monad M where
  pure a := (PyResult.ret a, [])
  bind x f :=
    match x with
    | (PyResult.ret a, tr) =>
      match f a with
      | (r, tr2) => (r, tr ++ tr2)
    | (PyResult.exn e, tr) => (PyResult.exn e, tr)

/-- Python dict insertion: replace in place when the key is present,
append otherwise. -/
def pyDictInsert {α β : Type} [DecidableEq α]
    (d : List (α × β)) (k : α) (v : β) : List (α × β) :=
  if d.any (fun p => p.1 = k) then
    d.map (fun p => if p.1 = k then (k, v) else p)
  else d ++ [(k, v)]

/-- Python `dict(pairs)`: left-to-right insertion with replacement. -/
def pyDict {α β : Type} [DecidableEq α] (l : List (α × β)) : List (α × β) :=
  l.foldl (fun d p => pyDictInsert d p.1 p.2) []

/-- One CSV data row as produced by `csv.DictReader` (the header zipped
with the row's values, made into a dict; rows are modelled as having the
header's length, so `restkey`/`restval` padding does not arise), followed
by the comprehension dropping `exclude_column`:
`{k: v for k, v in row.items() if k != exclude_column}`. -/
def docOfRow (header row : List String) (exclude_column : String) : Doc :=
  (pyDict (header.zip row)).filter (fun kv => kv.1 ≠ exclude_column)

/-- Splitting a character list at every occurrence of the separator, the
recursion behind Python `str.split` with a one-character separator. -/
def splitChars (sep : Char) : List Char → List (List Char)
  | [] => [[]]
  | c :: rest =>
    match splitChars sep rest with
    | [] => if c = sep then [[], []] else [[c]]
    | cur :: rs => if c = sep then [] :: cur :: rs else (c :: cur) :: rs

/-- Python `s.split(sep)` for a one-character separator, as used by
`main` to split the comma-separated core-name list. -/
def pySplit (s : String) (sep : Char) : List String :=
  (splitChars sep s.data).map String.mk

/-- Python `s.upper()` restricted to the ASCII letters appearing in core
names, as used to build each per-core environment-variable name. -/
def pyUpper (s : String) : String :=
  String.mk (s.data.map Char.toUpper)

/-- Python slice `l[::2]`: every element at an even index. -/
def everyOther {α : Type} : List α → List α
  | [] => []
  | [a] => [a]
  | a :: _ :: rest => a :: everyOther rest

-- Baseline script src/app.py.
namespace Baseline

/-- Embeds `check_solr_connection` (src/app.py lines 39-50). -/
def check_solr_connection (env : Env) : M Bool :=
  match env.statusAll with
  | .success _ => (.ret true, [.wire .statusAll])
  | .requestError _ => (.ret false, [.wire .statusAll])

/-- Embeds `check_core_exists` (src/app.py lines 52-67): a transport error
on the STATUS request is caught and reported as `false`. -/
def check_core_exists (env : Env) (core_name : String) : M Bool :=
  match env.status core_name with
  | .success cores => (.ret (cores.contains core_name), [.wire (.status core_name)])
  | .requestError _ => (.ret false, [.wire (.status core_name)])

/-- Embeds `createCore` (src/app.py lines 69-93): existence is checked
first; the CREATE request is issued only when the check reported false. -/
def createCore (env : Env) (core_name : String) : M String :=
  match check_core_exists env core_name with
  | (.ret true, tr) => (.ret s!"Core {core_name} already exists.", tr)
  | (.ret false, tr) =>
    (match env.create core_name with
     | .success (hasSuccess, text) =>
       if hasSuccess then
         (.ret s!"Core {core_name} created successfully.", tr ++ [.wire (.create core_name)])
       else
         (.ret s!"Failed to create core {core_name}. Response: {text}",
          tr ++ [.wire (.create core_name)])
     | .requestError msg =>
       (.ret s!"Failed to create core {core_name}. Error: {msg}",
        tr ++ [.wire (.create core_name)]))
  | (.exn e, tr) => (.exn e, tr)

/-- Embeds `indexData` (src/app.py lines 95-109). The CSV path is the
hardcoded `employee_data.csv`; only `FileNotFoundError` is caught, so a
pysolr exception from `solr.add` escapes; `solr.add` is called inside the
`with open(...)` block, before the file is closed. -/
def indexData (env : Env) (core_name exclude_column : String) : M String :=
  match env.readFile "employee_data.csv" with
  | none => (.ret "Failed to index data: CSV file not found", [])
  | some csv =>
    let documents := csv.rows.map (fun row => docOfRow csv.header row exclude_column)
    match env.add core_name documents with
    | .success _ =>
      (.ret s!"Data indexed into {core_name}, excluding column {exclude_column}",
       [.fileOpen "employee_data.csv", .fileRead "employee_data.csv",
        .wire (.add core_name documents), .fileClose "employee_data.csv"])
    | .raise msg =>
      (.exn (.solrError msg),
       [.fileOpen "employee_data.csv", .fileRead "employee_data.csv",
        .wire (.add core_name documents), .fileClose "employee_data.csv"])

/-- Embeds `searchByColumn` (src/app.py lines 112-120): the query is the
raw interpolation and any exception is folded into a failure string. -/
def searchByColumn (env : Env) (core_name column_name column_value : String) :
    M (List Doc ⊕ String) :=
  let query := column_name ++ ":\"" ++ column_value ++ "\""
  match env.search core_name query with
  | .success results => (.ret (.inl results), [.wire (.search core_name query)])
  | .raise msg => (.ret (.inr s!"Failed to search: {msg}"), [.wire (.search core_name query)])

/-- Embeds `getEmpCount` (src/app.py lines 122-129). -/
def getEmpCount (env : Env) (core_name : String) : M (Nat ⊕ String) :=
  match env.count core_name with
  | .success hits => (.ret (.inl hits), [.wire (.count core_name)])
  | .raise msg => (.ret (.inr s!"Failed to get employee count: {msg}"), [.wire (.count core_name)])

/-- Embeds `delEmpById` (src/app.py lines 131-138). -/
def delEmpById (env : Env) (core_name employee_id : String) : M String :=
  match env.delete core_name employee_id with
  | .success _ =>
    (.ret s!"Employee with ID {employee_id} deleted from {core_name}",
     [.wire (.delete core_name employee_id)])
  | .raise msg =>
    (.ret s!"Failed to delete employee: {msg}", [.wire (.delete core_name employee_id)])

/-- Embeds `getDepFacet` (src/app.py lines 140-148):
`dict(zip(facet_counts[::2], facet_counts[1::2]))`. -/
def getDepFacet (env : Env) (core_name : String) : M (List (JsonVal × JsonVal) ⊕ String) :=
  match env.facet core_name with
  | .success facet_counts =>
    (.ret (.inl (pyDict ((everyOther facet_counts).zip (everyOther facet_counts.tail)))),
     [.wire (.facet core_name)])
  | .raise msg =>
    (.ret (.inr s!"Failed to get department facet: {msg}"), [.wire (.facet core_name)])

def v_nameCore : String := "Hash_YourName"

def v_phoneCore : String := "Hash_1234"

/-- Embeds `main` (src/app.py lines 150-221): a failed connectivity check
returns early; otherwise the fixed demonstration sequence runs, each result
only printed (failure substrings checked for messages, never aborting).
An exception escaping an operation aborts the remaining sequence via bind. -/
def main (env : Env) : M Unit := do
  let ok ← check_solr_connection env
  if !ok then
    pure ()
  else do
    let _ ← createCore env v_nameCore
    let _ ← createCore env v_phoneCore
    let _ ← getEmpCount env v_nameCore
    let _ ← indexData env v_nameCore "Department"
    let _ ← indexData env v_phoneCore "Gender"
    let _ ← delEmpById env v_nameCore "E02003"
    let _ ← getEmpCount env v_nameCore
    let _ ← searchByColumn env v_nameCore "Department" "IT"
    let _ ← searchByColumn env v_nameCore "Gender" "Male"
    let _ ← searchByColumn env v_phoneCore "Department" "IT"
    let _ ← getDepFacet env v_nameCore
    let _ ← getDepFacet env v_phoneCore
    pure ()

end Baseline

-- Refactored script src/optimized/app.py (class SolrClient plus its driver).
-- Environment variables are modelled as an oracle getenv : String -> Option String.
namespace Optimized

/-- Embeds `SolrClient.check_connection` (src/optimized/app.py lines 29-41). -/
def check_connection (env : Env) : M Bool :=
  match env.statusAll with
  | .success _ => (.ret true, [.wire .statusAll])
  | .requestError _ => (.ret false, [.wire .statusAll])

/-- Embeds `SolrClient.check_core_exists` (src/optimized/app.py lines 43-59). -/
def check_core_exists (env : Env) (core_name : String) : M Bool :=
  match env.status core_name with
  | .success cores => (.ret (cores.contains core_name), [.wire (.status core_name)])
  | .requestError _ => (.ret false, [.wire (.status core_name)])

/-- Embeds `SolrClient.create_core` (src/optimized/app.py lines 61-85). -/
def create_core (env : Env) (core_name : String) : M String :=
  match check_core_exists env core_name with
  | (.ret true, tr) => (.ret s!"Core {core_name} already exists.", tr)
  | (.ret false, tr) =>
    (match env.create core_name with
     | .success (hasSuccess, text) =>
       if hasSuccess then
         (.ret s!"Core {core_name} created successfully.", tr ++ [.wire (.create core_name)])
       else
         (.ret s!"Failed to create core {core_name}. Response: {text}",
          tr ++ [.wire (.create core_name)])
     | .requestError msg =>
       (.ret s!"Failed to create core {core_name}. Error: {msg}",
        tr ++ [.wire (.create core_name)]))
  | (.exn e, tr) => (.exn e, tr)

/-- Embeds `SolrClient.index_data` (src/optimized/app.py lines 87-102): the
CSV path is a parameter, the `with` block ends before `solr.add`, and a
generic `except Exception` turns a server rejection into a failure string. -/
def index_data (env : Env) (core_name exclude_column csv_file : String) : M String :=
  match env.readFile csv_file with
  | none => (.ret s!"Failed to index data: CSV file {csv_file} not found", [])
  | some csv =>
    let documents := csv.rows.map (fun row => docOfRow csv.header row exclude_column)
    match env.add core_name documents with
    | .success _ =>
      (.ret s!"Data indexed into {core_name}, excluding column {exclude_column}",
       [.fileOpen csv_file, .fileRead csv_file, .fileClose csv_file,
        .wire (.add core_name documents)])
    | .raise msg =>
      (.ret s!"Failed to index data: {msg}",
       [.fileOpen csv_file, .fileRead csv_file, .fileClose csv_file,
        .wire (.add core_name documents)])

/-- Embeds `SolrClient.search_by_column` (src/optimized/app.py lines
104-113): on error it returns the empty list, not a failure string. -/
def search_by_column (env : Env) (core_name column_name column_value : String) :
    M (List Doc ⊕ String) :=
  let query := column_name ++ ":\"" ++ column_value ++ "\""
  match env.search core_name query with
  | .success results => (.ret (.inl results), [.wire (.search core_name query)])
  | .raise _ => (.ret (.inl []), [.wire (.search core_name query)])

/-- Embeds `SolrClient.get_employee_count` (src/optimized/app.py lines 115-123). -/
def get_employee_count (env : Env) (core_name : String) : M (Nat ⊕ String) :=
  match env.count core_name with
  | .success hits => (.ret (.inl hits), [.wire (.count core_name)])
  | .raise msg => (.ret (.inr s!"Failed to get employee count: {msg}"), [.wire (.count core_name)])

/-- Embeds `SolrClient.delete_employee_by_id` (src/optimized/app.py lines 125-133). -/
def delete_employee_by_id (env : Env) (core_name employee_id : String) : M String :=
  match env.delete core_name employee_id with
  | .success _ =>
    (.ret s!"Employee with ID {employee_id} deleted from {core_name}",
     [.wire (.delete core_name employee_id)])
  | .raise msg =>
    (.ret s!"Failed to delete employee: {msg}", [.wire (.delete core_name employee_id)])

/-- Embeds `SolrClient.get_department_facet` (src/optimized/app.py lines
135-144): on error it returns the empty mapping, not a failure string. -/
def get_department_facet (env : Env) (core_name : String) :
    M (List (JsonVal × JsonVal) ⊕ String) :=
  match env.facet core_name with
  | .success facet_counts =>
    (.ret (.inl (pyDict ((everyOther facet_counts).zip (everyOther facet_counts.tail)))),
     [.wire (.facet core_name)])
  | .raise _ => (.ret (.inl []), [.wire (.facet core_name)])

/-- Embeds `setup_cores` (src/optimized/app.py lines 146-151). -/
def setup_cores (env : Env) : List String → M Unit
  | [] => pure ()
  | core_name :: rest => do
    let _ ← create_core env core_name
    setup_cores env rest

/-- Embeds `index_data_to_cores` (src/optimized/app.py lines 153-158),
iterating over the `core_configs` dict items in insertion order. -/
def index_data_to_cores (env : Env) (csv_file : String) :
    List (String × String) → M Unit
  | [] => pure ()
  | (core_name, exclude_column) :: rest => do
    let _ ← index_data env core_name exclude_column csv_file
    index_data_to_cores env csv_file rest

/-- Embeds `perform_operations` (src/optimized/app.py lines 160-179). -/
def perform_operations (getenv : String → Option String) (env : Env)
    (core_name : String) : M Unit := do
  let _ ← delete_employee_by_id env core_name ((getenv "EMPLOYEE_ID_TO_DELETE").getD "E02003")
  let _ ← get_employee_count env core_name
  let _ ← search_by_column env core_name "Department" ((getenv "SEARCH_DEPARTMENT").getD "IT")
  let _ ← get_department_facet env core_name
  pure ()

/-- The `for core_name in core_names: perform_operations(...)` loop of
`main` (src/optimized/app.py lines 199-200). -/
def perform_operations_loop (getenv : String → Option String) (env : Env) :
    List String → M Unit
  | [] => pure ()
  | core_name :: rest => do
    let _ ← perform_operations getenv env core_name
    perform_operations_loop getenv env rest

/-- The `core_names` list of `main` (src/optimized/app.py line 189). -/
def core_names_of (getenv : String → Option String) : List String :=
  pySplit ((getenv "CORE_NAMES").getD "Hash_YourName,Hash_1234") ','

/-- The `core_configs` dict comprehension of `main` (src/optimized/app.py
lines 192-195): per-core excluded column from the environment, defaulting
to `Department`. -/
def core_configs (getenv : String → Option String) (core_names : List String) :
    List (String × String) :=
  pyDict (core_names.map fun core_name =>
    (core_name, (getenv (pyUpper core_name ++ "_EXCLUDE_COLUMN")).getD "Department"))

/-- Embeds `main` (src/optimized/app.py lines 181-200). -/
def main (getenv : String → Option String) (env : Env) : M Unit := do
  let ok ← check_connection env
  if !ok then
    pure ()
  else do
    let core_names := core_names_of getenv
    let _ ← setup_cores env core_names
    let csv_file := (getenv "CSV_FILE").getD "employee_data.csv"
    let _ ← index_data_to_cores env csv_file (core_configs getenv core_names)
    let _ ← perform_operations_loop getenv env core_names
    pure ()

end Optimized

/-- Process exit status of a script run: an uncaught exception makes
Python exit nonzero, a normal return exits 0. -/
def exitStatus : M Unit → Nat
  | (.ret _, _) => 0
  | (.exn _, _) => 1

/-- A conforming Solr server holding the cores `cores`: STATUS reports
them, CREATE succeeds with a `success` key, and document calls succeed. -/
def goodEnv (cores : List String) : Env where
  statusAll := .success ()
  status := fun _ => .success cores
  create := fun _ => .success (true, "ok")
  readFile := fun _ => none
  add := fun _ _ => .success ()
  search := fun _ _ => .success []
  count := fun _ => .success 0
  delete := fun _ _ => .success ()
  facet := fun _ => .success []

/-- How a conforming server's core set evolves under one observed event:
a CREATE request registers the core, everything else leaves it unchanged. -/
def serverStep (cores : List String) : Event → List String
  | .wire (.create c) => cores ++ [c]
  | _ => cores

/-- The server's core set after a list of observed events. -/
def serverRun (cores : List String) (events : List Event) : List String :=
  events.foldl serverStep cores

/-- The sample CSV used by the concrete runs: three columns, one data row. -/
def sampleCsv : Csv where
  header := ["EmpID", "Department", "Gender"]
  rows := [["E02002", "IT", "Male"]]

/-- A fully healthy concrete world: one existing core, the sample CSV
present, every server call succeeding. -/
def okEnv : Env where
  statusAll := .success ()
  status := fun _ => .success ["Hash_YourName"]
  create := fun _ => .success (true, "ok")
  readFile := fun _ => some sampleCsv
  add := fun _ _ => .success ()
  search := fun _ _ => .success []
  count := fun _ => .success 0
  delete := fun _ _ => .success ()
  facet := fun _ => .success []

/-- Like `okEnv` but every pysolr search raises. -/
def envSearchRaises : Env :=
  { okEnv with search := fun _ _ => SolrOutcome.raise "boom" }

/-- Like `okEnv` but every pysolr add (the indexing request) raises,
modelling a server that rejects the batch. -/
def envAddRaises : Env :=
  { okEnv with add := fun _ _ => SolrOutcome.raise "addfail" }

/-- Like `okEnv` but the CSV file is missing. -/
def envNoFile : Env :=
  { okEnv with readFile := fun _ => none }

/-- Like `okEnv` but the admin endpoint is unreachable: every STATUS
request fails with a transport error. -/
def envStatusDown : Env :=
  { okEnv with
    statusAll := HttpOutcome.requestError "down",
    status := fun _ => HttpOutcome.requestError "down" }

/-- Count of double-quote characters in a string, used to state that the
search-query construction performs no escaping. -/
def quoteCount (s : String) : Nat := s.data.count '"'

/-! Helper lemmas about the effect monad, strings and `pyDict`. -/

theorem M_bind_ret {α β : Type} (a : α) (tr : List Event) (f : α → M β) :
    (Bind.bind ((PyResult.ret a, tr) : M α) f : M β) = ((f a).1, tr ++ (f a).2) := by
  show (match f a with | (r, tr2) => (r, tr ++ tr2)) = _
  rcases f a with ⟨r, tr2⟩
  rfl

theorem M_bind_exn {α β : Type} (e : PyExn) (tr : List Event) (f : α → M β) :
    (Bind.bind ((PyResult.exn e, tr) : M α) f : M β) = (.exn e, tr) := rfl

theorem M_pure_eq {α : Type} (a : α) : (pure a : M α) = (.ret a, []) := rfl

theorem string_append_left_cancel {s t u : String} (h : s ++ t = s ++ u) : t = u := by
  have h2 := congrArg String.data h
  simp [String.data_append] at h2
  exact String.ext h2

theorem string_append_empty (s : String) : s ++ "" = s := by
  apply String.ext
  show s.data ++ ("" : String).data = s.data
  simp

theorem contains_eq_false_of_not_mem {l : List String} {a : String}
    (h : a ∉ l) : l.contains a = false := by
  simp [List.elem_eq_mem]
  exact h

theorem contains_eq_true_of_mem {l : List String} {a : String}
    (h : a ∈ l) : l.contains a = true := by
  simp [List.elem_eq_mem]
  exact h

theorem mem_pyDictInsert {α β : Type} [DecidableEq α] {d : List (α × β)}
    {k : α} {v : β} {p : α × β} (h : p ∈ pyDictInsert d k v) :
    p ∈ d ∨ p = (k, v) := by
  rw [pyDictInsert] at h
  split at h
  · rcases List.mem_map.1 h with ⟨q, hq, hq2⟩
    by_cases hk : q.1 = k
    · right
      rw [if_pos hk] at hq2
      exact hq2.symm
    · left
      rw [if_neg hk] at hq2
      exact hq2 ▸ hq
  · rcases List.mem_append.1 h with h1 | h1
    · exact Or.inl h1
    · exact Or.inr (List.mem_singleton.1 h1)

theorem mem_pyDict_fold {α β : Type} [DecidableEq α] (l : List (α × β)) :
    ∀ (acc : List (α × β)) (p : α × β),
      p ∈ l.foldl (fun d q => pyDictInsert d q.1 q.2) acc → p ∈ acc ∨ p ∈ l := by
  induction l with
  | nil => exact fun acc p h => Or.inl h
  | cons q rest ih =>
    intro acc p h
    rcases ih (pyDictInsert acc q.1 q.2) p h with h1 | h1
    · rcases mem_pyDictInsert h1 with h2 | h2
      · exact Or.inl h2
      · right
        simp [h2]
    · right
      exact List.mem_cons_of_mem _ h1

theorem mem_pyDict {α β : Type} [DecidableEq α] {l : List (α × β)} {p : α × β}
    (h : p ∈ pyDict l) : p ∈ l := by
  rcases mem_pyDict_fold l [] p h with h1 | h1
  · exact absurd h1 (List.not_mem_nil p)
  · exact h1

theorem docOfRow_keys {A B C a b c : String}
    (hAB : A ≠ B) (hCB : C ≠ B) (hAC : A ≠ C) :
    docOfRow [A, B, C] [a, b, c] B = [(A, a), (C, c)] := by
  simp [docOfRow, pyDict, pyDictInsert, List.foldl, hAB, hCB, hAC, Ne.symm hCB,
    Ne.symm hAC, List.filter]

theorem exists_triple_of_length_three {r : List String} (h : r.length = 3) :
    ∃ a b c, r = [a, b, c] := by
  match r, h with
  | [a, b, c], _ => exact ⟨a, b, c, rfl⟩

/-! The five operations whose refactored method is the same function as the
baseline one. -/

theorem check_connection_eq_baseline :
    Optimized.check_connection = Baseline.check_solr_connection := rfl

theorem check_core_exists_eq_baseline :
    Optimized.check_core_exists = Baseline.check_core_exists := rfl

theorem create_core_eq_baseline :
    Optimized.create_core = Baseline.createCore := rfl

theorem get_employee_count_eq_baseline :
    Optimized.get_employee_count = Baseline.getEmpCount := rfl

theorem delete_employee_by_id_eq_baseline :
    Optimized.delete_employee_by_id = Baseline.delEmpById := rfl

/-! Shape lemmas: each operation's result and event trace, by cases on the
oracle's answer. -/

theorem check_solr_connection_shape (env : Env) :
    ∃ b, Baseline.check_solr_connection env = (.ret b, [.wire .statusAll]) := by
  unfold Baseline.check_solr_connection
  cases env.statusAll <;> exact ⟨_, rfl⟩

theorem check_core_exists_shape (env : Env) (c : String) :
    ∃ b, Baseline.check_core_exists env c = (.ret b, [.wire (.status c)]) := by
  unfold Baseline.check_core_exists
  cases env.status c <;> exact ⟨_, rfl⟩

theorem createCore_shape (env : Env) (c : String) :
    ∃ s tr, Baseline.createCore env c = (.ret s, tr) := by
  unfold Baseline.createCore
  obtain ⟨b, hb⟩ := check_core_exists_shape env c
  rw [hb]
  cases b
  · cases env.create c with
    | success p =>
      rcases p with ⟨hs, text⟩
      cases hs <;> exact ⟨_, _, rfl⟩
    | requestError msg => exact ⟨_, _, rfl⟩
  · exact ⟨_, _, rfl⟩

theorem searchByColumn_shape (env : Env) (c f v : String) :
    ∃ r, Baseline.searchByColumn env c f v =
      (.ret r, [.wire (.search c (f ++ ":\"" ++ v ++ "\""))]) := by
  simp only [Baseline.searchByColumn]
  cases env.search c (f ++ ":\"" ++ v ++ "\"") <;> exact ⟨_, rfl⟩

theorem search_by_column_shape (env : Env) (c f v : String) :
    ∃ r, Optimized.search_by_column env c f v =
      (.ret (.inl r), [.wire (.search c (f ++ ":\"" ++ v ++ "\""))]) := by
  simp only [Optimized.search_by_column]
  cases env.search c (f ++ ":\"" ++ v ++ "\"") <;> exact ⟨_, rfl⟩

theorem getEmpCount_shape (env : Env) (c : String) :
    ∃ r, Baseline.getEmpCount env c = (.ret r, [.wire (.count c)]) := by
  unfold Baseline.getEmpCount
  cases env.count c <;> exact ⟨_, rfl⟩

theorem delEmpById_shape (env : Env) (c i : String) :
    ∃ s, Baseline.delEmpById env c i = (.ret s, [.wire (.delete c i)]) := by
  unfold Baseline.delEmpById
  cases env.delete c i <;> exact ⟨_, rfl⟩

theorem getDepFacet_shape (env : Env) (c : String) :
    ∃ r, Baseline.getDepFacet env c = (.ret r, [.wire (.facet c)]) := by
  unfold Baseline.getDepFacet
  cases env.facet c <;> exact ⟨_, rfl⟩

theorem get_department_facet_shape (env : Env) (c : String) :
    ∃ r, Optimized.get_department_facet env c = (.ret (.inl r), [.wire (.facet c)]) := by
  unfold Optimized.get_department_facet
  cases env.facet c <;> exact ⟨_, rfl⟩

theorem index_data_shape (env : Env) (c e p : String) :
    ∃ s tr, Optimized.index_data env c e p = (.ret s, tr) := by
  simp only [Optimized.index_data]
  split
  · exact ⟨_, _, rfl⟩
  · split <;> exact ⟨_, _, rfl⟩

theorem indexData_none_shape (env : Env) (c e : String)
    (h : env.readFile "employee_data.csv" = none) :
    Baseline.indexData env c e = (.ret "Failed to index data: CSV file not found", []) := by
  simp only [Baseline.indexData, h]

theorem indexData_success_shape (env : Env) (c e : String) (csv : Csv)
    (hf : env.readFile "employee_data.csv" = some csv)
    (ha : env.add c (csv.rows.map fun row => docOfRow csv.header row e) = .success ()) :
    Baseline.indexData env c e =
      (.ret s!"Data indexed into {c}, excluding column {e}",
       [.fileOpen "employee_data.csv", .fileRead "employee_data.csv",
        .wire (.add c (csv.rows.map fun row => docOfRow csv.header row e)),
        .fileClose "employee_data.csv"]) := by
  simp only [Baseline.indexData, hf, ha]

theorem indexData_noraise_shape (env : Env) (c e : String)
    (hadd : ∀ docs msg, env.add c docs ≠ .raise msg) :
    ∃ s tr, Baseline.indexData env c e = (.ret s, tr) := by
  simp only [Baseline.indexData]
  split
  · exact ⟨_, _, rfl⟩
  · split
    · exact ⟨_, _, rfl⟩
    · next heq => exact absurd heq (hadd _ _)

theorem indexData_raise_shape (env : Env) (c e msg : String) (csv : Csv)
    (hf : env.readFile "employee_data.csv" = some csv)
    (ha : env.add c (csv.rows.map fun row => docOfRow csv.header row e) = .raise msg) :
    Baseline.indexData env c e =
      (.exn (.solrError msg),
       [.fileOpen "employee_data.csv", .fileRead "employee_data.csv",
        .wire (.add c (csv.rows.map fun row => docOfRow csv.header row e)),
        .fileClose "employee_data.csv"]) := by
  simp only [Baseline.indexData, hf, ha]

/-! Orchestration lemmas: the driver loops of the refactored variant never
raise, and their traces contain the later demonstration steps. -/

theorem setup_cores_shape (env : Env) (l : List String) :
    ∃ tr, Optimized.setup_cores env l = (.ret (), tr) := by
  induction l with
  | nil => exact ⟨[], rfl⟩
  | cons c rest ih =>
    obtain ⟨s, tr1, h1⟩ := createCore_shape env c
    obtain ⟨tr2, h2⟩ := ih
    refine ⟨tr1 ++ tr2, ?_⟩
    show Bind.bind (Optimized.create_core env c) (fun _ => Optimized.setup_cores env rest) = _
    rw [create_core_eq_baseline, h1, M_bind_ret]
    simp [h2]

theorem index_data_to_cores_shape (env : Env) (p : String)
    (l : List (String × String)) :
    ∃ tr, Optimized.index_data_to_cores env p l = (.ret (), tr) := by
  induction l with
  | nil => exact ⟨[], rfl⟩
  | cons q rest ih =>
    obtain ⟨s, tr1, h1⟩ := index_data_shape env q.1 q.2 p
    obtain ⟨tr2, h2⟩ := ih
    refine ⟨tr1 ++ tr2, ?_⟩
    show Bind.bind (Optimized.index_data env q.1 q.2 p)
      (fun _ => Optimized.index_data_to_cores env p rest) = _
    rw [h1, M_bind_ret]
    simp [h2]

theorem perform_operations_shape (getenv : String → Option String) (env : Env)
    (c : String) :
    ∃ tr, Optimized.perform_operations getenv env c = (.ret (), tr) ∧
      Event.wire (.facet c) ∈ tr := by
  obtain ⟨s1, h1⟩ := delEmpById_shape env c ((getenv "EMPLOYEE_ID_TO_DELETE").getD "E02003")
  obtain ⟨s2, h2⟩ := getEmpCount_shape env c
  obtain ⟨s3, h3⟩ := search_by_column_shape env c "Department" ((getenv "SEARCH_DEPARTMENT").getD "IT")
  obtain ⟨s4, h4⟩ := get_department_facet_shape env c
  simp only [Optimized.perform_operations]
  rw [delete_employee_by_id_eq_baseline, get_employee_count_eq_baseline,
    h1, M_bind_ret, h2, M_bind_ret, h3, M_bind_ret, h4, M_bind_ret, M_pure_eq]
  exact ⟨_, rfl, by simp⟩

theorem perform_operations_loop_shape (getenv : String → Option String) (env : Env)
    (l : List String) :
    ∃ tr, Optimized.perform_operations_loop getenv env l = (.ret (), tr) ∧
      ∀ c ∈ l, Event.wire (.facet c) ∈ tr := by
  induction l with
  | nil => exact ⟨[], rfl, by simp⟩
  | cons c rest ih =>
    obtain ⟨tr1, h1, hm1⟩ := perform_operations_shape getenv env c
    obtain ⟨tr2, h2, hm2⟩ := ih
    refine ⟨tr1 ++ tr2, ?_, ?_⟩
    · show Bind.bind (Optimized.perform_operations getenv env c)
        (fun _ => Optimized.perform_operations_loop getenv env rest) = _
      rw [h1, M_bind_ret, h2]
    · intro c2 hc2
      rcases List.mem_cons.1 hc2 with h | h
      · exact List.mem_append.2 (Or.inl (h ▸ hm1))
      · exact List.mem_append.2 (Or.inr (hm2 c2 h))

theorem baseline_main_early (env : Env) (msg : String)
    (h : env.statusAll = .requestError msg) :
    Baseline.main env = (.ret (), [.wire .statusAll]) := by
  have hc : Baseline.check_solr_connection env = (.ret false, [.wire .statusAll]) := by
    unfold Baseline.check_solr_connection
    rw [h]
  simp only [Baseline.main]
  rw [hc, M_bind_ret]
  rfl

theorem baseline_main_complete (env : Env) (u : Unit)
    (hs : env.statusAll = .success u)
    (hadd : ∀ c docs msg, env.add c docs ≠ SolrOutcome.raise msg) :
    ∃ tr, Baseline.main env = (.ret (), tr) ∧
      Event.wire (.facet Baseline.v_nameCore) ∈ tr ∧
      Event.wire (.facet Baseline.v_phoneCore) ∈ tr ∧
      Event.wire (.delete Baseline.v_nameCore "E02003") ∈ tr := by
  have hc : Baseline.check_solr_connection env = (.ret true, [.wire .statusAll]) := by
    unfold Baseline.check_solr_connection
    rw [hs]
  obtain ⟨c1s, c1t, hc1⟩ := createCore_shape env Baseline.v_nameCore
  obtain ⟨c2s, c2t, hc2⟩ := createCore_shape env Baseline.v_phoneCore
  obtain ⟨g1, hg1⟩ := getEmpCount_shape env Baseline.v_nameCore
  obtain ⟨i1s, i1t, hi1⟩ :=
    indexData_noraise_shape env Baseline.v_nameCore "Department" (fun d m => hadd _ d m)
  obtain ⟨i2s, i2t, hi2⟩ :=
    indexData_noraise_shape env Baseline.v_phoneCore "Gender" (fun d m => hadd _ d m)
  obtain ⟨d1, hd1⟩ := delEmpById_shape env Baseline.v_nameCore "E02003"
  obtain ⟨s1, hs1⟩ := searchByColumn_shape env Baseline.v_nameCore "Department" "IT"
  obtain ⟨s2, hs2⟩ := searchByColumn_shape env Baseline.v_nameCore "Gender" "Male"
  obtain ⟨s3, hs3⟩ := searchByColumn_shape env Baseline.v_phoneCore "Department" "IT"
  obtain ⟨f1, hf1⟩ := getDepFacet_shape env Baseline.v_nameCore
  obtain ⟨f2, hf2⟩ := getDepFacet_shape env Baseline.v_phoneCore
  simp only [Baseline.main]
  rw [hc, M_bind_ret]
  simp only [Bool.not_true, Bool.false_eq_true, if_false]
  rw [hc1, hc2, hg1, hi1, hi2, hd1, hs1, hs2, hs3, hf1, hf2]
  simp only [M_bind_ret, M_pure_eq]
  refine ⟨_, rfl, ?_, ?_, ?_⟩ <;> simp

theorem optimized_main_early (getenv : String → Option String) (env : Env)
    (msg : String) (h : env.statusAll = .requestError msg) :
    Optimized.main getenv env = (.ret (), [.wire .statusAll]) := by
  show Bind.bind (Optimized.check_connection env) _ = _
  have hc : Optimized.check_connection env = (.ret false, [.wire .statusAll]) := by
    unfold Optimized.check_connection
    rw [h]
  rw [hc, M_bind_ret]
  rfl

theorem optimized_main_facets (getenv : String → Option String) (env : Env)
    (u : Unit) (h : env.statusAll = .success u) :
    ∃ tr, Optimized.main getenv env = (.ret (), tr) ∧
      ∀ c ∈ Optimized.core_names_of getenv, Event.wire (.facet c) ∈ tr := by
  have hc : Optimized.check_connection env = (.ret true, [.wire .statusAll]) := by
    unfold Optimized.check_connection
    rw [h]
  obtain ⟨tr1, h1⟩ := setup_cores_shape env (Optimized.core_names_of getenv)
  obtain ⟨tr2, h2⟩ := index_data_to_cores_shape env ((getenv "CSV_FILE").getD "employee_data.csv")
    (Optimized.core_configs getenv (Optimized.core_names_of getenv))
  obtain ⟨tr3, h3, hm3⟩ := perform_operations_loop_shape getenv env (Optimized.core_names_of getenv)
  simp only [Optimized.main]
  rw [hc, M_bind_ret]
  simp only [Bool.not_true, Bool.false_eq_true, if_false]
  rw [h1, M_bind_ret, h2, M_bind_ret, h3, M_bind_ret, M_pure_eq]
  refine ⟨_, rfl, ?_⟩
  intro c hcm
  simp only [List.mem_append, List.append_nil]
  right
  right
  right
  exact hm3 c hcm

theorem goodEnv_check_core_exists (cores : List String) (c : String) :
    Baseline.check_core_exists (goodEnv cores) c =
      (.ret (cores.contains c), [.wire (.status c)]) := rfl

theorem goodEnv_createCore_absent (cores : List String) (c : String)
    (h : c ∉ cores) :
    Baseline.createCore (goodEnv cores) c =
      (.ret s!"Core {c} created successfully.",
       [.wire (.status c), .wire (.create c)]) := by
  unfold Baseline.createCore
  rw [goodEnv_check_core_exists, contains_eq_false_of_not_mem h]
  rfl

theorem goodEnv_createCore_present (cores : List String) (c : String)
    (h : c ∈ cores) :
    Baseline.createCore (goodEnv cores) c =
      (.ret s!"Core {c} already exists.", [.wire (.status c)]) := by
  unfold Baseline.createCore
  rw [goodEnv_check_core_exists, contains_eq_true_of_mem h]

theorem optimized_main_ret (getenv : String → Option String) (env : Env) :
    ∃ tr, Optimized.main getenv env = (.ret (), tr) := by
  obtain ⟨b, hb⟩ : ∃ b, Optimized.check_connection env = (.ret b, [.wire .statusAll]) :=
    check_solr_connection_shape env
  obtain ⟨tr1, h1⟩ := setup_cores_shape env (Optimized.core_names_of getenv)
  obtain ⟨tr2, h2⟩ := index_data_to_cores_shape env ((getenv "CSV_FILE").getD "employee_data.csv")
    (Optimized.core_configs getenv (Optimized.core_names_of getenv))
  obtain ⟨tr3, h3, _⟩ := perform_operations_loop_shape getenv env (Optimized.core_names_of getenv)
  simp only [Optimized.main]
  rw [hb, M_bind_ret]
  cases b
  · exact ⟨_, rfl⟩
  · simp only [Bool.not_true, Bool.false_eq_true, if_false]
    rw [h1, M_bind_ret, h2, M_bind_ret, h3, M_bind_ret, M_pure_eq]
    exact ⟨_, rfl⟩

/-! Claim theorems. -/

/-- C4: against a conforming server, create-core for an absent core name
returns the created status; after the server registers the observed CREATE
request, a subsequent exists-check returns true, and a second create-core
returns the already-exists status while issuing no CREATE request (the
existence check runs before creation). The refactored client's create-core
and exists-check are the same functions, so the property carries over. -/
theorem C4_create_core_idempotent (cores : List String) (c : String)
    (h : c ∉ cores) :
    (Baseline.createCore (goodEnv cores) c).1 =
      .ret s!"Core {c} created successfully." ∧
    (Baseline.check_core_exists
        (goodEnv (serverRun cores (Baseline.createCore (goodEnv cores) c).2)) c).1 =
      .ret true ∧
    (Baseline.createCore
        (goodEnv (serverRun cores (Baseline.createCore (goodEnv cores) c).2)) c).1 =
      .ret s!"Core {c} already exists." ∧
    (∀ c2, Event.wire (.create c2) ∉
      (Baseline.createCore
        (goodEnv (serverRun cores (Baseline.createCore (goodEnv cores) c).2)) c).2) ∧
    Optimized.create_core = Baseline.createCore ∧
    Optimized.check_core_exists = Baseline.check_core_exists := by
  have hrun : serverRun cores (Baseline.createCore (goodEnv cores) c).2 = cores ++ [c] := by
    rw [goodEnv_createCore_absent cores c h]
    rfl
  have hmem : c ∈ cores ++ [c] := List.mem_append.2 (Or.inr (List.mem_singleton.2 rfl))
  refine ⟨by rw [goodEnv_createCore_absent cores c h], ?_, ?_, ?_, rfl, rfl⟩
  · rw [hrun, goodEnv_check_core_exists, contains_eq_true_of_mem hmem]
  · rw [hrun, goodEnv_createCore_present _ _ hmem]
  · intro c2
    rw [hrun, goodEnv_createCore_present _ _ hmem]
    simp

/-- C4 witness: a concrete instantiation on a server holding one core. -/
theorem C4_create_core_idempotent_witness :
    "NewCore" ∉ (["Hash_YourName"] : List String) ∧
    (Baseline.createCore (goodEnv ["Hash_YourName"]) "NewCore").1 =
      .ret "Core NewCore created successfully." ∧
    (Baseline.check_core_exists
        (goodEnv (serverRun ["Hash_YourName"]
          (Baseline.createCore (goodEnv ["Hash_YourName"]) "NewCore").2)) "NewCore").1 =
      .ret true := by
  have h := C4_create_core_idempotent ["Hash_YourName"] "NewCore" (by decide)
  exact ⟨by decide, h.1, h.2.1⟩

/-- C10: when the core-status request fails with a transport error, the
exists-check returns false — exactly as for a core that is genuinely
absent — and create-core then issues a CREATE request to the server. -/
theorem C10_transport_error_reads_absent (env : Env) (c msg : String)
    (h : env.status c = .requestError msg) :
    (Baseline.check_core_exists env c).1 = .ret false ∧
    (Optimized.check_core_exists env c).1 = .ret false ∧
    (∀ cores, c ∉ cores →
      (Baseline.check_core_exists (goodEnv cores) c).1 = .ret false) ∧
    Event.wire (.create c) ∈ (Baseline.createCore env c).2 ∧
    Event.wire (.create c) ∈ (Optimized.create_core env c).2 := by
  have h1 : Baseline.check_core_exists env c = (.ret false, [.wire (.status c)]) := by
    unfold Baseline.check_core_exists
    rw [h]
  have h3 : Event.wire (.create c) ∈ (Baseline.createCore env c).2 := by
    unfold Baseline.createCore
    rw [h1]
    cases henv : env.create c with
    | success p =>
      rcases p with ⟨hs, text⟩
      cases hs <;> simp
    | requestError m => simp
  refine ⟨by rw [h1], by rw [check_core_exists_eq_baseline, h1], ?_, h3,
    by rw [create_core_eq_baseline]; exact h3⟩
  intro cores hc
  rw [goodEnv_check_core_exists, contains_eq_false_of_not_mem hc]

/-- C10 witness: the concrete world whose admin endpoint is down. -/
theorem C10_transport_error_reads_absent_witness :
    (Baseline.check_core_exists envStatusDown "Hash_YourName").1 = .ret false ∧
    Event.wire (.create "Hash_YourName") ∈
      (Baseline.createCore envStatusDown "Hash_YourName").2 := by
  have h := C10_transport_error_reads_absent envStatusDown "Hash_YourName" "down" rfl
  exact ⟨h.1, h.2.2.2.1⟩

/-- C6: both search operations send to the server exactly the query
obtained by interpolating the field name and value into the pattern
field:"value" — character for character, with no escaping — so the query's
double-quote count is the two delimiters plus whatever quotes the inputs
carry, and a value containing a double-quote yields at least three quotes
(corrupting the exact-match query syntax). -/
theorem C6_query_interpolation (env : Env) (core f v : String) :
    (Baseline.searchByColumn env core f v).2 =
      [.wire (.search core (f ++ ":\"" ++ v ++ "\""))] ∧
    (Optimized.search_by_column env core f v).2 =
      [.wire (.search core (f ++ ":\"" ++ v ++ "\""))] ∧
    (f ++ ":\"" ++ v ++ "\"").data =
      f.data ++ ':' :: '"' :: (v.data ++ ['"']) ∧
    quoteCount (f ++ ":\"" ++ v ++ "\"") = quoteCount f + quoteCount v + 2 ∧
    ('"' ∈ v.data → 3 ≤ quoteCount (f ++ ":\"" ++ v ++ "\"")) := by
  have hdata : (f ++ ":\"" ++ v ++ "\"").data =
      f.data ++ ':' :: '"' :: (v.data ++ ['"']) := by
    simp [String.data_append]
  have hcount : quoteCount (f ++ ":\"" ++ v ++ "\"") =
      quoteCount f + quoteCount v + 2 := by
    unfold quoteCount
    rw [hdata]
    simp [List.count_append, List.count_cons]
    omega
  obtain ⟨r1, h1⟩ := searchByColumn_shape env core f v
  obtain ⟨r2, h2⟩ := search_by_column_shape env core f v
  refine ⟨by rw [h1], by rw [h2], hdata, hcount, ?_⟩
  intro hq
  have : 0 < quoteCount v := List.count_pos_iff.2 hq
  omega

/-- C6 witness: a value containing a double-quote produces a query with
three quote characters. -/
theorem C6_query_interpolation_witness :
    ('"' ∈ ("IT\"" : String).data) ∧
    3 ≤ quoteCount ("Department" ++ ":\"" ++ "IT\"" ++ "\"") := by
  exact ⟨by decide, (C6_query_interpolation okEnv "c" "Department" "IT\"").2.2.2.2 (by decide)⟩

/-- C5: indexing a CSV whose header columns are A, B, C with excluded
column B sends to the server one document per data row, and every
document's keys are exactly A and C. Stated for the refactored
index-data on an arbitrary path and for the baseline on its hardcoded
path. -/
theorem C5_documents_shape (env : Env) (core A B C p : String)
    (rows : List (List String))
    (hAB : A ≠ B) (hCB : C ≠ B) (hAC : A ≠ C)
    (hlen : ∀ r ∈ rows, r.length = 3) :
    (env.readFile p = some ⟨[A, B, C], rows⟩ →
      ∃ docs, Event.wire (.add core docs) ∈ (Optimized.index_data env core B p).2 ∧
        docs.length = rows.length ∧
        ∀ d ∈ docs, d.map Prod.fst = [A, C]) ∧
    (env.readFile "employee_data.csv" = some ⟨[A, B, C], rows⟩ →
      ∃ docs, Event.wire (.add core docs) ∈ (Baseline.indexData env core B).2 ∧
        docs.length = rows.length ∧
        ∀ d ∈ docs, d.map Prod.fst = [A, C]) := by
  have hdocs : ∀ d ∈ rows.map (fun row => docOfRow [A, B, C] row B),
      d.map Prod.fst = [A, C] := by
    intro d hd
    rcases List.mem_map.1 hd with ⟨r, hr, rfl⟩
    obtain ⟨a, b, c, rfl⟩ := exists_triple_of_length_three (hlen r hr)
    rw [docOfRow_keys hAB hCB hAC]
    rfl
  constructor
  · intro hf
    refine ⟨rows.map (fun row => docOfRow [A, B, C] row B), ?_, by simp, hdocs⟩
    simp only [Optimized.index_data, hf]
    split <;> simp
  · intro hf
    refine ⟨rows.map (fun row => docOfRow [A, B, C] row B), ?_, by simp, hdocs⟩
    simp only [Baseline.indexData, hf]
    split <;> simp

/-- C5 witness: the sample CSV with the Department column excluded yields
one document whose keys are EmpID and Gender. -/
theorem C5_documents_shape_witness :
    Hashagile.okEnv.readFile "employee_data.csv" =
      some ⟨["EmpID", "Department", "Gender"], [["E02002", "IT", "Male"]]⟩ ∧
    ∃ docs, Event.wire (.add "Hash_YourName" docs) ∈
        (Baseline.indexData okEnv "Hash_YourName" "Department").2 ∧
      docs.length = [["E02002", "IT", "Male"]].length ∧
      ∀ d ∈ docs, d.map Prod.fst = ["EmpID", "Gender"] := by
  refine ⟨rfl, ?_⟩
  exact (C5_documents_shape okEnv "Hash_YourName" "EmpID" "Department" "Gender"
    "employee_data.csv" [["E02002", "IT", "Male"]]
    (by decide) (by decide) (by decide) (by decide)).2 rfl

/-- C9: with no per-core environment override, every configured core's
excluded column defaults to Department, so the refactored run indexes both
sample cores with Department removed (documents keep Gender), while the
baseline run excludes Department from the first core and Gender from the
second (documents for the second core keep Department). -/
theorem C9_default_exclusions (getenv : String → Option String)
    (core_names : List String)
    (h : ∀ c ∈ core_names, getenv (pyUpper c ++ "_EXCLUDE_COLUMN") = none) :
    (∀ q ∈ Optimized.core_configs getenv core_names, q.2 = "Department") ∧
    Optimized.core_configs (fun _ => none)
        (Optimized.core_names_of (fun _ => none)) =
      [("Hash_YourName", "Department"), ("Hash_1234", "Department")] ∧
    Event.wire (.add "Hash_YourName" [[("EmpID", "E02002"), ("Gender", "Male")]]) ∈
      (Baseline.main okEnv).2 ∧
    Event.wire (.add "Hash_1234" [[("EmpID", "E02002"), ("Department", "IT")]]) ∈
      (Baseline.main okEnv).2 ∧
    Event.wire (.add "Hash_YourName" [[("EmpID", "E02002"), ("Gender", "Male")]]) ∈
      (Optimized.main (fun _ => none) okEnv).2 ∧
    Event.wire (.add "Hash_1234" [[("EmpID", "E02002"), ("Gender", "Male")]]) ∈
      (Optimized.main (fun _ => none) okEnv).2 := by
  refine ⟨?_, by decide, by decide, by decide, by decide, by decide⟩
  intro q hq
  rcases List.mem_map.1 (mem_pyDict hq) with ⟨c, hc, rfl⟩
  simp [h c hc]

/-- C9 witness: the universally quantified part instantiated at the empty
environment, a concrete core list and a concrete config entry. -/
theorem C9_default_exclusions_witness :
    ("Hash_YourName", "Department") ∈
      Optimized.core_configs (fun _ => none) ["Hash_YourName"] ∧
    (("Hash_YourName", "Department") : String × String).2 = "Department" :=
  ⟨by decide,
   (C9_default_exclusions (fun _ => none) ["Hash_YourName"] (fun _ _ => rfl)).1
     ("Hash_YourName", "Department") (by decide)⟩

/-- C2 counterexample: in the baseline script, when the server rejects the
batch (the pysolr add raises), indexData does not return a failure string —
the exception escapes to its caller, refuting the claim for the baseline
index-data operation. -/
theorem C2_counterexample :
    (Baseline.indexData envAddRaises "Hash_YourName" "Department").1 =
      .exn (.solrError "addfail") := by
  decide

/-- C2 amended: the refactored index_data returns a failure string both
when the CSV file is missing and when the server rejects the batch, never
raising, and the file-not-found string differs from the generic failure
string unless the server's error text is itself the file-not-found text;
the baseline indexData returns the (path-less) file-not-found string when
the file is missing but lets a server rejection escape as an exception. -/
theorem C2_index_error_strings (env : Env) (core excl p msg : String)
    (csv : Csv) :
    (env.readFile p = none →
      (Optimized.index_data env core excl p).1 =
        .ret s!"Failed to index data: CSV file {p} not found") ∧
    (env.readFile p = some csv →
      env.add core (csv.rows.map fun row => docOfRow csv.header row excl) =
        .raise msg →
      (Optimized.index_data env core excl p).1 =
        .ret s!"Failed to index data: {msg}") ∧
    (∃ s, (Optimized.index_data env core excl p).1 = .ret s) ∧
    (msg ≠ "CSV file " ++ p ++ " not found" →
      (s!"Failed to index data: CSV file {p} not found" : String) ≠
        s!"Failed to index data: {msg}") ∧
    (env.readFile "employee_data.csv" = none →
      (Baseline.indexData env core excl).1 =
        .ret "Failed to index data: CSV file not found") ∧
    (env.readFile "employee_data.csv" = some csv →
      env.add core (csv.rows.map fun row => docOfRow csv.header row excl) =
        .raise msg →
      (Baseline.indexData env core excl).1 = .exn (.solrError msg)) := by
  refine ⟨?_, ?_, ?_, ?_, ?_, ?_⟩
  · intro hf
    simp only [Optimized.index_data, hf]
  · intro hf ha
    simp only [Optimized.index_data, hf, ha]
  · obtain ⟨s, tr, hs⟩ := index_data_shape env core excl p
    exact ⟨s, by rw [hs]⟩
  · intro hne heq
    apply hne
    have h2 : "Failed to index data: " ++ ("CSV file " ++ (p ++ " not found")) =
        ("Failed to index data: " ++ msg) ++ "" := heq
    rw [string_append_empty] at h2
    exact (string_append_left_cancel h2).symm
  · intro hf
    rw [indexData_none_shape env core excl hf]
  · intro hf ha
    rw [indexData_raise_shape env core excl msg csv hf ha]

/-- C2 amended witness: concrete worlds with the file missing and with the
server rejecting the batch. -/
theorem C2_index_error_strings_witness :
    (Optimized.index_data envNoFile "Hash_YourName" "Department" "employee_data.csv").1 =
      .ret "Failed to index data: CSV file employee_data.csv not found" ∧
    (Optimized.index_data envAddRaises "Hash_YourName" "Department" "employee_data.csv").1 =
      .ret "Failed to index data: addfail" ∧
    ("Failed to index data: CSV file employee_data.csv not found" : String) ≠
      "Failed to index data: addfail" := by
  refine ⟨?_, ?_, ?_⟩
  · exact (C2_index_error_strings envNoFile "Hash_YourName" "Department"
      "employee_data.csv" "addfail" sampleCsv).1 rfl
  · exact (C2_index_error_strings envAddRaises "Hash_YourName" "Department"
      "employee_data.csv" "addfail" sampleCsv).2.1 rfl rfl
  · exact (C2_index_error_strings envAddRaises "Hash_YourName" "Department"
      "employee_data.csv" "addfail" sampleCsv).2.2.2.1 (by decide)

/-- C3 counterexample: the baseline indexData propagates the pysolr
exception to its caller when the server rejects the batch, refuting the
claim that no admin-client operation ever propagates an exception. -/
theorem C3_counterexample :
    (Baseline.indexData envAddRaises "Hash_1234" "Gender").1 =
      .exn (.solrError "addfail") := by
  decide

/-- C3 amended: every refactored SolrClient operation returns a value (a
success value or a failure-signaling string) and never propagates an
exception, and so does every baseline operation except indexData; baseline
indexData returns a value when the CSV file is missing or when no pysolr
call raises, but propagates the pysolr exception when the server rejects
the batch. -/
theorem C3_no_propagation (env : Env) (c f v i e p : String) :
    (∃ b, (Baseline.check_solr_connection env).1 = .ret b) ∧
    (∃ b, (Optimized.check_connection env).1 = .ret b) ∧
    (∃ b, (Baseline.check_core_exists env c).1 = .ret b) ∧
    (∃ b, (Optimized.check_core_exists env c).1 = .ret b) ∧
    (∃ s, (Baseline.createCore env c).1 = .ret s) ∧
    (∃ s, (Optimized.create_core env c).1 = .ret s) ∧
    (∃ s, (Optimized.index_data env c e p).1 = .ret s) ∧
    (∃ r, (Baseline.searchByColumn env c f v).1 = .ret r) ∧
    (∃ r, (Optimized.search_by_column env c f v).1 = .ret r) ∧
    (∃ r, (Baseline.getEmpCount env c).1 = .ret r) ∧
    (∃ r, (Optimized.get_employee_count env c).1 = .ret r) ∧
    (∃ s, (Baseline.delEmpById env c i).1 = .ret s) ∧
    (∃ s, (Optimized.delete_employee_by_id env c i).1 = .ret s) ∧
    (∃ r, (Baseline.getDepFacet env c).1 = .ret r) ∧
    (∃ r, (Optimized.get_department_facet env c).1 = .ret r) ∧
    (env.readFile "employee_data.csv" = none →
      ∃ s, (Baseline.indexData env c e).1 = .ret s) ∧
    ((∀ docs msg, env.add c docs ≠ SolrOutcome.raise msg) →
      ∃ s, (Baseline.indexData env c e).1 = .ret s) ∧
    (∀ csv msg, env.readFile "employee_data.csv" = some csv →
      env.add c (csv.rows.map fun row => docOfRow csv.header row e) = .raise msg →
      (Baseline.indexData env c e).1 = .exn (.solrError msg)) := by
  obtain ⟨b1, hb1⟩ := check_solr_connection_shape env
  obtain ⟨b2, hb2⟩ := check_core_exists_shape env c
  obtain ⟨s1, t1, hs1⟩ := createCore_shape env c
  obtain ⟨s2, t2, hs2⟩ := index_data_shape env c e p
  obtain ⟨r1, hr1⟩ := searchByColumn_shape env c f v
  obtain ⟨r2, hr2⟩ := search_by_column_shape env c f v
  obtain ⟨r3, hr3⟩ := getEmpCount_shape env c
  obtain ⟨d1, hd1⟩ := delEmpById_shape env c i
  obtain ⟨fa, hfa⟩ := getDepFacet_shape env c
  obtain ⟨fb, hfb⟩ := get_department_facet_shape env c
  refine ⟨⟨b1, by rw [hb1]⟩, ⟨b1, by rw [check_connection_eq_baseline, hb1]⟩,
    ⟨b2, by rw [hb2]⟩, ⟨b2, by rw [check_core_exists_eq_baseline, hb2]⟩,
    ⟨s1, by rw [hs1]⟩, ⟨s1, by rw [create_core_eq_baseline, hs1]⟩,
    ⟨s2, by rw [hs2]⟩,
    ⟨r1, by rw [hr1]⟩, ⟨.inl r2, by rw [hr2]⟩,
    ⟨r3, by rw [hr3]⟩, ⟨r3, by rw [get_employee_count_eq_baseline, hr3]⟩,
    ⟨d1, by rw [hd1]⟩, ⟨d1, by rw [delete_employee_by_id_eq_baseline, hd1]⟩,
    ⟨fa, by rw [hfa]⟩, ⟨.inl fb, by rw [hfb]⟩, ?_, ?_, ?_⟩
  · intro hf
    exact ⟨_, by rw [indexData_none_shape env c e hf]⟩
  · intro hadd
    obtain ⟨s, tr, hs⟩ := indexData_noraise_shape env c e (fun d m => hadd d m)
    exact ⟨s, by rw [hs]⟩
  · intro csv msg hf ha
    rw [indexData_raise_shape env c e msg csv hf ha]

/-- C3 amended witness: concrete instantiations of the never-raises parts
and of the missing-file case. -/
theorem C3_no_propagation_witness :
    (∃ b, (Baseline.check_solr_connection okEnv).1 = .ret b) ∧
    (∃ s, (Baseline.indexData envNoFile "Hash_YourName" "Department").1 = .ret s) := by
  refine ⟨(C3_no_propagation okEnv "Hash_YourName" "Department" "IT" "E02003"
    "Department" "employee_data.csv").1, ?_⟩
  exact (C3_no_propagation envNoFile "Hash_YourName" "Department" "IT" "E02003"
    "Department" "employee_data.csv").2.2.2.2.2.2.2.2.2.2.2.2.2.2.2.1 rfl

/-- C7 counterexample: in the baseline run against a server that rejects
the indexing batch, the failure of the index operation stops the run (the
later facet requests are never issued) and the process exit status is 1,
refuting the claim that no individual operation failure stops the run and
that the exit status does not depend on such failures. -/
theorem C7_counterexample :
    exitStatus (Baseline.main envAddRaises) = 1 ∧
    Event.wire (.facet Baseline.v_phoneCore) ∉ (Baseline.main envAddRaises).2 ∧
    exitStatus (Baseline.main okEnv) = 0 := by
  refine ⟨by decide, by decide, by decide⟩

/-- C7 amended: a failed connectivity check makes both mains return early
with only the status request issued; the refactored main never raises, so
its process exits 0 and, once connectivity succeeds, every configured
core's facet step runs no matter which operations failed; the baseline
main behaves the same way provided no pysolr add raises — a server-side
rejection of indexing aborts the rest of its run with exit status 1. -/
theorem C7_orchestration (env : Env) (getenv : String → Option String)
    (msg : String) (u : Unit) :
    (env.statusAll = .requestError msg →
      Baseline.main env = (.ret (), [.wire .statusAll]) ∧
      Optimized.main getenv env = (.ret (), [.wire .statusAll])) ∧
    exitStatus (Optimized.main getenv env) = 0 ∧
    (env.statusAll = .success u →
      ∀ c ∈ Optimized.core_names_of getenv,
        Event.wire (.facet c) ∈ (Optimized.main getenv env).2) ∧
    (env.statusAll = .success u →
      (∀ c docs m2, env.add c docs ≠ SolrOutcome.raise m2) →
      exitStatus (Baseline.main env) = 0 ∧
      Event.wire (.facet Baseline.v_nameCore) ∈ (Baseline.main env).2 ∧
      Event.wire (.facet Baseline.v_phoneCore) ∈ (Baseline.main env).2) := by
  refine ⟨?_, ?_, ?_, ?_⟩
  · intro h
    exact ⟨baseline_main_early env msg h, optimized_main_early getenv env msg h⟩
  · obtain ⟨tr, htr⟩ := optimized_main_ret getenv env
    rw [htr]
    rfl
  · intro h c hc
    obtain ⟨tr, htr, hm⟩ := optimized_main_facets getenv env u h
    rw [htr]
    exact hm c hc
  · intro h hadd
    obtain ⟨tr, htr, hm1, hm2, _⟩ := baseline_main_complete env u h hadd
    rw [htr]
    exact ⟨rfl, hm1, hm2⟩

/-- C7 amended witness: the healthy concrete world exits 0 and reaches the
facet step of both sample cores in both variants. -/
theorem C7_orchestration_witness :
    exitStatus (Optimized.main (fun _ => none) okEnv) = 0 ∧
    Event.wire (.facet "Hash_1234") ∈ (Optimized.main (fun _ => none) okEnv).2 ∧
    exitStatus (Baseline.main okEnv) = 0 ∧
    Event.wire (.facet Baseline.v_phoneCore) ∈ (Baseline.main okEnv).2 := by
  have h := C7_orchestration okEnv (fun _ => none) "down" ()
  refine ⟨h.2.1, h.2.2.1 rfl "Hash_1234" (by decide), ?_, ?_⟩
  · exact (h.2.2.2 rfl (fun c docs m2 hx => by cases hx)).1
  · exact (h.2.2.2 rfl (fun c docs m2 hx => by cases hx)).2.2

/-- C8 counterexample: in the baseline indexData the add request is issued
inside the with-open block — in the concrete run its add event occurs
strictly before the file-close event — refuting the claim that the add
request is never issued while the file is still open. -/
theorem C8_counterexample :
    Event.wire (.add "Hash_YourName" [[("EmpID", "E02002"), ("Gender", "Male")]]) ∈
      (Baseline.indexData okEnv "Hash_YourName" "Department").2 ∧
    Event.fileClose "employee_data.csv" ∈
      (Baseline.indexData okEnv "Hash_YourName" "Department").2 ∧
    (Baseline.indexData okEnv "Hash_YourName" "Department").2.indexOf
        (Event.wire (.add "Hash_YourName" [[("EmpID", "E02002"), ("Gender", "Male")]])) <
      (Baseline.indexData okEnv "Hash_YourName" "Department").2.indexOf
        (Event.fileClose "employee_data.csv") := by
  refine ⟨by decide, by decide, by decide⟩

/-- C8 amended: in the refactored index_data the CSV file is closed after
the rows are read and before the add request is issued (every close event
precedes every add event in its trace); in the baseline the add request is
issued before the file is closed. -/
theorem C8_close_before_add (env : Env) (core excl p : String) (csv : Csv)
    (hf : env.readFile p = some csv) :
    ((Optimized.index_data env core excl p).2 =
      [.fileOpen p, .fileRead p, .fileClose p,
       .wire (.add core (csv.rows.map fun row => docOfRow csv.header row excl))] ∧
     ∀ i j, (Optimized.index_data env core excl p).2.get? i =
         some (.fileClose p) →
       (Optimized.index_data env core excl p).2.get? j =
         some (.wire (.add core (csv.rows.map fun row => docOfRow csv.header row excl))) →
       i < j) ∧
    (env.readFile "employee_data.csv" = some csv →
      (Baseline.indexData env core excl).2 =
        [.fileOpen "employee_data.csv", .fileRead "employee_data.csv",
         .wire (.add core (csv.rows.map fun row => docOfRow csv.header row excl)),
         .fileClose "employee_data.csv"]) := by
  have htr : (Optimized.index_data env core excl p).2 =
      [.fileOpen p, .fileRead p, .fileClose p,
       .wire (.add core (csv.rows.map fun row => docOfRow csv.header row excl))] := by
    simp only [Optimized.index_data, hf]
    split <;> rfl
  refine ⟨⟨htr, ?_⟩, ?_⟩
  · intro i j hi hj
    rw [htr] at hi hj
    have hi2 : i = 2 := by
      rcases i with _ | _ | _ | _ | i <;> simp_all [List.get?]
    have hj3 : j = 3 := by
      rcases j with _ | _ | _ | _ | j <;> simp_all [List.get?]
    omega
  · intro hf2
    simp only [Baseline.indexData, hf2]
    split <;> rfl

/-- C8 amended witness: the concrete healthy run of the refactored
index_data, whose trace closes the file before the add request. -/
theorem C8_close_before_add_witness :
    (Optimized.index_data okEnv "Hash_YourName" "Department" "employee_data.csv").2 =
      [.fileOpen "employee_data.csv", .fileRead "employee_data.csv",
       .fileClose "employee_data.csv",
       .wire (.add "Hash_YourName" [[("EmpID", "E02002"), ("Gender", "Male")]])] := by
  have h := (C8_close_before_add okEnv "Hash_YourName" "Department"
    "employee_data.csv" sampleCsv rfl).1.1
  rw [h]
  rfl

/-- C1 counterexample: the two variants are not functionally identical —
on a failing search the baseline returns a failure string while the
refactored method returns the empty list, and on a missing CSV file the
two index operations return different failure strings. -/
theorem C1_counterexample :
    Baseline.searchByColumn envSearchRaises "Hash_YourName" "Department" "IT" ≠
      Optimized.search_by_column envSearchRaises "Hash_YourName" "Department" "IT" ∧
    (Baseline.indexData envNoFile "Hash_YourName" "Department").1 ≠
      (Optimized.index_data envNoFile "Hash_YourName" "Department" "employee_data.csv").1 := by
  refine ⟨by decide, by decide⟩

/-- C1 amended: the two variants agree as functions on check-connection,
core-exists, create-core, get-count and delete-by-id for every input and
server behavior, and agree on index, search and facet whenever the
underlying call succeeds; they differ only in failure results of index
(missing-file string with versus without the path; server rejection:
exception versus failure string), search (failure string versus empty
list) and facet (failure string versus empty mapping). -/
theorem C1_refinement (env : Env) (c f v e : String) (csv : Csv)
    (results : List Doc) (fc : List JsonVal) :
    Optimized.check_connection = Baseline.check_solr_connection ∧
    Optimized.check_core_exists = Baseline.check_core_exists ∧
    Optimized.create_core = Baseline.createCore ∧
    Optimized.get_employee_count = Baseline.getEmpCount ∧
    Optimized.delete_employee_by_id = Baseline.delEmpById ∧
    (env.readFile "employee_data.csv" = some csv →
      env.add c (csv.rows.map fun row => docOfRow csv.header row e) =
        .success () →
      (Baseline.indexData env c e).1 =
        (Optimized.index_data env c e "employee_data.csv").1) ∧
    (env.search c (f ++ ":\"" ++ v ++ "\"") = .success results →
      Baseline.searchByColumn env c f v = Optimized.search_by_column env c f v) ∧
    (env.facet c = .success fc →
      Baseline.getDepFacet env c = Optimized.get_department_facet env c) := by
  refine ⟨rfl, rfl, rfl, rfl, rfl, ?_, ?_, ?_⟩
  · intro hf ha
    rw [indexData_success_shape env c e csv hf ha]
    simp only [Optimized.index_data, hf, ha]
  · intro hs
    simp only [Baseline.searchByColumn, Optimized.search_by_column, hs]
  · intro hfc
    simp only [Baseline.getDepFacet, Optimized.get_department_facet, hfc]

/-- C1 amended witness: on the healthy concrete world both variants
produce the same index result and the same search result. -/
theorem C1_refinement_witness :
    (Baseline.indexData okEnv "Hash_YourName" "Department").1 =
      (Optimized.index_data okEnv "Hash_YourName" "Department" "employee_data.csv").1 ∧
    Baseline.searchByColumn okEnv "Hash_YourName" "Department" "IT" =
      Optimized.search_by_column okEnv "Hash_YourName" "Department" "IT" := by
  have h := C1_refinement okEnv "Hash_YourName" "Department" "IT" "Department"
    sampleCsv [] []
  exact ⟨h.2.2.2.2.2.1 rfl rfl, h.2.2.2.2.2.2.1 rfl⟩

end Hashagile
